import Mathlib

/-!
Verification of the navigation-sidebar and avatar-streaming components of the
teaching-assistant UI (src/teaching-assistant/src/components/NavigationSidebar.tsx).

The component's observable behaviour is embedded shallowly:

* A click on a menu entry is embedded as a function producing the list of
  observable effects the handler performs, in program order (calls on the
  external streaming client, router pushes, view changes, sidebar-open updates,
  log lines).  The outcome of the external `stopStreaming` promise is a boolean
  parameter (`stopFails`), since the external client may resolve or reject it.
* UI state (sidebar open flag, current view, router path) is a record, and a
  trace of effects is applied to it left to right.
* The avatar panel's mount effect is embedded as the list of calls it makes on
  the streaming client, and its listener bookkeeping as operations on the
  client's list of (event, callback) registrations.
* The avatar panel's local state (loading flag, loading message, elapsed
  seconds, interval handle) is a record with one function per lifecycle
  callback / timer tick.
-/

namespace TeachingAssistant

/-- A menu entry of the sidebar, from the `Menus` constant.
The `Icon` field is a React component and purely presentational; it is omitted. -/
structure MenuItem where
  title : String
  navigateTo : String
  gap : Bool := false
  clickable : Bool
deriving DecidableEq, Repr

/-- The static `Menus` list of the sidebar. -/
def Menus : List MenuItem :=
  [ { title := "Lessons", navigateTo := "Demo", clickable := true },
    { title := "Vocabulary", navigateTo := "Vocabulary", clickable := false },
    { title := "Practice", navigateTo := "Practice", clickable := false, gap := true },
    { title := "Progress", navigateTo := "Progress", clickable := false },
    { title := "Settings", navigateTo := "Settings", clickable := true, gap := true },
    { title := "Exit", navigateTo := "Initial", clickable := true, gap := true } ]

/-- One observable effect performed by the sidebar's click handlers. -/
inductive Effect where
  /-- the call `anamClient.stopStreaming()` -/
  | stopStreamingCall : Effect
  /-- the rejection handler in `handleMenuClick`: it calls the logging utility -/
  | catchLoggerError : Effect
  /-- the rejection handler in `handleExitClick`: it passes the error to the
  generic console error handler -/
  | catchConsoleError : Effect
  /-- a `logger.info` line -/
  | logInfo : String → Effect
  /-- the call `router.push p` -/
  | routerPush : String → Effect
  /-- the call `changeView v` on the view context -/
  | changeView : String → Effect
  /-- the call `setOpen b` on the sidebar open state -/
  | setOpen : Bool → Effect
deriving DecidableEq, Repr

/-- The effects of `handleExitClick`, in program order.  `anamClient` records
whether the external streaming client exists, `stopFails` whether its
`stopStreaming` promise rejects (the rejection is consumed by `.catch`). -/
def handleExitClick (anamClient stopFails : Bool) : List Effect :=
  (if anamClient then
      Effect.stopStreamingCall ::
        ((if stopFails then [Effect.catchConsoleError] else []) ++
          [Effect.logInfo "stopped streaming"])
    else []) ++
  [Effect.routerPush "/", Effect.changeView "Demo", Effect.setOpen false]

/-- The effects of `handleMenuClick navigateTo clickable`, in program order. -/
def handleMenuClick (anamClient stopFails : Bool) (currentView navigateTo : String)
    (clickable : Bool) : List Effect :=
  if !clickable then []
  else if navigateTo = "Initial" then
    handleExitClick anamClient stopFails ++ [Effect.setOpen false]
  else
    (if currentView = "Demo" ∧ ¬navigateTo = "Demo" then
        if anamClient then
          Effect.stopStreamingCall ::
            (if stopFails then [Effect.catchLoggerError] else [])
        else []
      else []) ++
    [Effect.changeView navigateTo, Effect.logInfo "stopped streaming",
      Effect.setOpen false]

/-- The UI state the sidebar handlers can change: the sidebar open flag, the
current view held by the view context, and the router's current path. -/
structure UIState where
  sidebarOpen : Bool
  currentView : String
  pagePath : String
deriving DecidableEq, Repr

/-- Applying one effect to the UI state.  Client calls and log lines do not
change UI state. -/
def applyEffect (s : UIState) : Effect → UIState
  | Effect.routerPush p => { s with pagePath := p }
  | Effect.changeView v => { s with currentView := v }
  | Effect.setOpen b => { s with sidebarOpen := b }
  | _ => s

/-- Applying a trace of effects left to right. -/
def applyTrace (s : UIState) : List Effect → UIState
  | [] => s
  | e :: tr => applyTrace (applyEffect s e) tr

/-- Number of elements of a list satisfying a boolean predicate. -/
def countP {α : Type} (p : α → Bool) : List α → Nat
  | [] => 0
  | a :: l => (if p a then 1 else 0) + countP p l

/-- Number of occurrences of an element in a list. -/
def countE {α : Type} [DecidableEq α] (a : α) : List α → Nat
  | [] => 0
  | b :: l => (if a = b then 1 else 0) + countE a l

/-- Index of the first occurrence of an element (length of the list if absent). -/
def idxOf {α : Type} [DecidableEq α] (a : α) : List α → Nat
  | [] => 0
  | b :: l => if a = b then 0 else idxOf a l + 1

/-- Is this effect one of the two rejection handlers? -/
def isCatch : Effect → Bool
  | Effect.catchLoggerError => true
  | Effect.catchConsoleError => true
  | _ => false

/-- Is this effect a router push? -/
def isRouterPush : Effect → Bool
  | Effect.routerPush _ => true
  | _ => false

/-! ## The avatar panel (`AvatarContainer`) -/

/-- The three lifecycle events of the external streaming client that the
avatar panel subscribes to (`AnamEvent`). -/
inductive AnamEvent where
  | CONNECTION_ESTABLISHED : AnamEvent
  | VIDEO_PLAY_STARTED : AnamEvent
  | CONNECTION_CLOSED : AnamEvent
deriving DecidableEq, Repr

/-- A listener registration on the streaming client: the event name together
with the callback reference (callback references are represented by `Nat`
identifiers; each mount of the panel supplies its own references). -/
abbrev Listener := AnamEvent × Nat

/-- `anamClient.addListener ev cb`: the client appends the registration. -/
def addListener (L : List Listener) (ev : AnamEvent) (cb : Nat) : List Listener :=
  L ++ [(ev, cb)]

/-- Remove the first occurrence of a registration, the usual event-emitter
semantics of `removeListener`; removing an absent registration changes nothing. -/
def removeFirst (p : Listener) : List Listener → List Listener
  | [] => []
  | q :: L => if p = q then L else q :: removeFirst p L

/-- `anamClient.removeListener ev cb`. -/
def removeListener (L : List Listener) (ev : AnamEvent) (cb : Nat) : List Listener :=
  removeFirst (ev, cb) L

/-- Effect of the mount effect's `startStreaming` on the client's listener
registrations: when the client is initialized, exists, and both media refs are
current, it registers the three callbacks; otherwise it registers nothing. -/
def mountListeners (isClientInitialized anamClient videoCur audioCur : Bool)
    (cbEst cbVideo cbClosed : Nat) (L : List Listener) : List Listener :=
  if isClientInitialized && anamClient && videoCur && audioCur then
    addListener
      (addListener
        (addListener L AnamEvent.CONNECTION_ESTABLISHED cbEst)
        AnamEvent.VIDEO_PLAY_STARTED cbVideo)
      AnamEvent.CONNECTION_CLOSED cbClosed
  else L

/-- Effect of the mount effect's cleanup on the client's listener
registrations: when the client exists it removes the same three callbacks. -/
def unmountListeners (anamClient : Bool) (cbEst cbVideo cbClosed : Nat)
    (L : List Listener) : List Listener :=
  if anamClient then
    removeListener
      (removeListener
        (removeListener L AnamEvent.CONNECTION_ESTABLISHED cbEst)
        AnamEvent.VIDEO_PLAY_STARTED cbVideo)
      AnamEvent.CONNECTION_CLOSED cbClosed
  else L

/-- One call made on the streaming client by `startStreaming`. -/
inductive ClientCall where
  /-- `anamClient.addListener ev cb` -/
  | addL : AnamEvent → Nat → ClientCall
  /-- `anamClient.streamToVideoAndAudioElements videoId audioId` -/
  | streamTo : String → String → ClientCall
  /-- the `catch` branch: the error is passed to the generic `errorHandler` -/
  | errorHandled : ClientCall
deriving DecidableEq, Repr

/-- Is this call a listener registration? -/
def isAddCall : ClientCall → Bool
  | ClientCall.addL _ _ => true
  | _ => false

/-- The calls `startStreaming` makes on the client, in program order.
`streamFails` records whether `streamToVideoAndAudioElements` rejects; the
rejection is consumed by the surrounding `try`/`catch` via `errorHandler`. -/
def startStreaming (isClientInitialized anamClient videoCur audioCur streamFails : Bool)
    (videoId audioId : String) (cbEst cbVideo cbClosed : Nat) : List ClientCall :=
  if isClientInitialized && anamClient && videoCur && audioCur then
    [ClientCall.addL AnamEvent.CONNECTION_ESTABLISHED cbEst,
      ClientCall.addL AnamEvent.VIDEO_PLAY_STARTED cbVideo,
      ClientCall.addL AnamEvent.CONNECTION_CLOSED cbClosed,
      ClientCall.streamTo videoId audioId] ++
    (if streamFails then [ClientCall.errorHandled] else [])
  else []

/-- The fixed DOM id of the panel's video element (`<video id="video" …>`). -/
def videoElementId : String := "video"

/-- The fixed DOM id of the panel's audio element (`<audio id="audio" …>`). -/
def audioElementId : String := "audio"

/-- The calls made on the client when the avatar panel mounts: `startStreaming`
applied to the ids of the two media elements rendered by the panel. -/
def avatarMountCalls (isClientInitialized anamClient videoCur audioCur streamFails : Bool)
    (cbEst cbVideo cbClosed : Nat) : List ClientCall :=
  startStreaming isClientInitialized anamClient videoCur audioCur streamFails
    videoElementId audioElementId cbEst cbVideo cbClosed

/-- Local state of the avatar panel: the loading flag and message, the
elapsed-seconds counter, and whether the one-second interval is installed. -/
structure AvatarState where
  loading : Bool
  loadingText : String
  secondsElapsed : Int
  intervalActive : Bool
deriving DecidableEq, Repr

/-- The panel's state right after mount: `useState(true)`, `useState
connecting-message`, `useState(0)`, and the interval effect has installed the
one-second timer. -/
def initialAvatarState : AvatarState :=
  { loading := true, loadingText := "Connecting...", secondsElapsed := 0,
    intervalActive := true }

/-- The `CONNECTION_ESTABLISHED` callback: it only updates the loading message. -/
def onConnectionEstablished (s : AvatarState) : AvatarState :=
  { s with loadingText := "Connected to a Persona." }

/-- The `VIDEO_PLAY_STARTED` callback: it clears the loading flag. -/
def onVideoStartedStreaming (s : AvatarState) : AvatarState :=
  { s with loading := false }

/-- The `CONNECTION_CLOSED` callback: it clears the loading flag. -/
def onConnectionClosed (s : AvatarState) : AvatarState :=
  { s with loading := false }

/-- One tick of the one-second interval: while the interval is installed it
runs the updater `fun prev => prev + 1`; once `clearInterval` has run, a tick
no longer occurs and the state is unchanged. -/
def timerTick (s : AvatarState) : AvatarState :=
  if s.intervalActive then { s with secondsElapsed := s.secondsElapsed + 1 }
  else s

/-- The interval effect's cleanup on unmount: `clearInterval`. -/
def unmountTimer (s : AvatarState) : AvatarState :=
  { s with intervalActive := false }

/-- Modelled from the spec: the `DemoControls` child component (its source file
is not part of this repository snapshot) receives `secondsElapsed` and
`setSecondsElapsed`; per the spec the counter is only incremented by the
one-second interval and "reset never occurs", so `DemoControls` leaves the
panel's state unchanged. -/
def demoControlsStep (s : AvatarState) : AvatarState := s

/-- The operations that can act on the avatar panel's state during its mounted
lifetime (and its unmount cleanup). -/
inductive AvatarOp where
  | connEstablished : AvatarOp
  | videoStarted : AvatarOp
  | connClosed : AvatarOp
  | tick : AvatarOp
  | demoControls : AvatarOp
  | unmount : AvatarOp
deriving DecidableEq, Repr

/-- Semantics of avatar-panel operations. -/
def applyAvatarOp : AvatarOp → AvatarState → AvatarState
  | AvatarOp.connEstablished => onConnectionEstablished
  | AvatarOp.videoStarted => onVideoStartedStreaming
  | AvatarOp.connClosed => onConnectionClosed
  | AvatarOp.tick => timerTick
  | AvatarOp.demoControls => demoControlsStep
  | AvatarOp.unmount => unmountTimer

/-! ## Theorems -/

/-- C1: clicking the "Exit" menu entry (target `"Initial"`, clickable) always
performs the router push to `"/"` and then the view reset to `"Demo"`, in that
order, and when a streaming client exists the `stopStreaming` call is awaited
before both of them. -/
theorem exit_click_stops_streaming_before_navigation (c f : Bool) (cv : String) :
    Effect.routerPush "/" ∈ handleMenuClick c f cv "Initial" true
    ∧ Effect.changeView "Demo" ∈ handleMenuClick c f cv "Initial" true
    ∧ idxOf (Effect.routerPush "/") (handleMenuClick c f cv "Initial" true)
        < idxOf (Effect.changeView "Demo") (handleMenuClick c f cv "Initial" true)
    ∧ (c = true →
        Effect.stopStreamingCall ∈ handleMenuClick c f cv "Initial" true
        ∧ idxOf Effect.stopStreamingCall (handleMenuClick c f cv "Initial" true)
            < idxOf (Effect.routerPush "/") (handleMenuClick c f cv "Initial" true)
        ∧ idxOf Effect.stopStreamingCall (handleMenuClick c f cv "Initial" true)
            < idxOf (Effect.changeView "Demo") (handleMenuClick c f cv "Initial" true)) := by
  cases c <;> cases f <;>
    simp [handleMenuClick, handleExitClick, idxOf]

/-- Witness for C1 at a concrete input (client exists, promise resolves). -/
theorem exit_click_stops_streaming_before_navigation_witness :
    (true : Bool) = true
    ∧ Effect.stopStreamingCall ∈ handleMenuClick true false "Demo" "Initial" true
    ∧ idxOf Effect.stopStreamingCall (handleMenuClick true false "Demo" "Initial" true)
        < idxOf (Effect.routerPush "/") (handleMenuClick true false "Demo" "Initial" true) :=
  ⟨rfl, ((exit_click_stops_streaming_before_navigation true false "Demo").2.2.2 rfl).1,
    ((exit_click_stops_streaming_before_navigation true false "Demo").2.2.2 rfl).2.1⟩

/-- C2: clicking an entry whose `clickable` flag is `false` performs no effect
at all: the trace is empty and the UI state (view, sidebar flag, router path)
is unchanged, and no `stopStreaming` call is made. -/
theorem non_clickable_click_is_noop (c f : Bool) (cv nav : String) (s : UIState) :
    handleMenuClick c f cv nav false = []
    ∧ applyTrace s (handleMenuClick c f cv nav false) = s
    ∧ countE Effect.stopStreamingCall (handleMenuClick c f cv nav false) = 0 := by
  simp [handleMenuClick, applyTrace, countE]

/-- C3: for a clickable click whose target is not `"Initial"`, `stopStreaming`
is called exactly once when the current view is `"Demo"`, the target differs
from `"Demo"` and a client exists — and in that case the call precedes the
view change — and is not called at all otherwise. -/
theorem view_switch_stops_streaming_once (c f : Bool) (cv nav : String)
    (hnav : nav ≠ "Initial") :
    countE Effect.stopStreamingCall (handleMenuClick c f cv nav true)
      = (if cv = "Demo" ∧ ¬nav = "Demo" ∧ c = true then 1 else 0)
    ∧ (cv = "Demo" → ¬nav = "Demo" → c = true →
        idxOf Effect.stopStreamingCall (handleMenuClick c f cv nav true)
          < idxOf (Effect.changeView nav) (handleMenuClick c f cv nav true)) := by
  by_cases hcv : cv = "Demo" <;> by_cases hnd : nav = "Demo" <;>
    cases c <;> cases f <;>
      simp [handleMenuClick, handleExitClick, countE, idxOf, hnav, hcv, hnd]

/-- Witness for C3 at a concrete input: switching from `"Demo"` to
`"Settings"` with a client whose promise resolves. -/
theorem view_switch_stops_streaming_once_witness :
    ("Settings" : String) ≠ "Initial"
    ∧ countE Effect.stopStreamingCall (handleMenuClick true false "Demo" "Settings" true)
        = (if ("Demo" : String) = "Demo" ∧ ¬("Settings" : String) = "Demo" ∧ (true : Bool) = true
            then 1 else 0)
    ∧ idxOf Effect.stopStreamingCall (handleMenuClick true false "Demo" "Settings" true)
        < idxOf (Effect.changeView "Settings") (handleMenuClick true false "Demo" "Settings" true) :=
  ⟨by decide,
    (view_switch_stops_streaming_once true false "Demo" "Settings" (by decide)).1,
    (view_switch_stops_streaming_once true false "Demo" "Settings" (by decide)).2
      rfl (by decide) rfl⟩

/-- C4: a rejection of the external `stopStreaming` promise is consumed at the
call site: dropping the two catch handlers from the failing trace gives
exactly the successful trace (so nothing is re-thrown and every later effect
still happens), the resulting UI state is identical to the success case, and
each `stopStreaming` call of the failing run is matched by exactly one catch
handler (the logging utility in the view-switch path, the generic console
handler in the Exit path). -/
theorem stop_streaming_rejection_is_swallowed (c : Bool) (cv nav : String)
    (k : Bool) (s : UIState) :
    List.filter (fun e => !isCatch e) (handleMenuClick c true cv nav k)
      = handleMenuClick c false cv nav k
    ∧ applyTrace s (handleMenuClick c true cv nav k)
        = applyTrace s (handleMenuClick c false cv nav k)
    ∧ countP isCatch (handleMenuClick c true cv nav k)
        = countE Effect.stopStreamingCall (handleMenuClick c true cv nav k) := by
  by_cases hna : nav = "Initial" <;> by_cases hcv : cv = "Demo" <;>
    by_cases hnd : nav = "Demo" <;> cases c <;> cases k <;>
      simp [handleMenuClick, handleExitClick, List.filter, isCatch, countP,
        countE, applyTrace, applyEffect, hna, hcv, hnd]

/-- A tick on a state whose interval has been cleared changes nothing. -/
theorem timerTick_of_cleared (s : AvatarState) (h : s.intervalActive = false) :
    timerTick s = s := by
  simp [timerTick, h]

/-- Iterated ticks on a state whose interval has been cleared change nothing. -/
theorem iterate_timerTick_of_cleared (n : Nat) (s : AvatarState)
    (h : s.intervalActive = false) : timerTick^[n] s = s := by
  induction n with
  | zero => rfl
  | succ n ih => rw [Function.iterate_succ_apply, timerTick_of_cleared s h, ih]

/-- C5: while the panel is mounted (interval installed) a timer tick takes the
elapsed-seconds counter from any value `n` to `n + 1`; the unmount cleanup
clears the interval, and after it no number of further ticks changes the
counter. -/
theorem timer_tick_increments_and_stops_after_unmount (s : AvatarState) (n : Nat) :
    (s.intervalActive = true →
      (timerTick s).secondsElapsed = s.secondsElapsed + 1)
    ∧ (unmountTimer s).intervalActive = false
    ∧ (timerTick^[n] (unmountTimer s)).secondsElapsed = s.secondsElapsed := by
  refine ⟨fun h => by simp [timerTick, h], rfl, ?_⟩
  rw [iterate_timerTick_of_cleared n (unmountTimer s) rfl]
  rfl

/-- Witness for C5 at a concrete input: the freshly mounted panel state and
three post-unmount ticks. -/
theorem timer_tick_increments_and_stops_after_unmount_witness :
    initialAvatarState.intervalActive = true
    ∧ (timerTick initialAvatarState).secondsElapsed
        = initialAvatarState.secondsElapsed + 1
    ∧ (timerTick^[3] (unmountTimer initialAvatarState)).secondsElapsed
        = initialAvatarState.secondsElapsed :=
  ⟨rfl, (timer_tick_increments_and_stops_after_unmount initialAvatarState 3).1 rfl,
    (timer_tick_increments_and_stops_after_unmount initialAvatarState 3).2.2⟩

/-- C6: the elapsed-seconds counter starts at 0, is non-negative, and no
operation of the avatar panel (lifecycle callbacks, timer tick, the
DemoControls child, unmount cleanup) ever decreases it; in particular
non-negativity is preserved by every operation. -/
theorem seconds_elapsed_starts_at_zero_and_never_decreases :
    initialAvatarState.secondsElapsed = 0
    ∧ (0 : Int) ≤ initialAvatarState.secondsElapsed
    ∧ (∀ op : AvatarOp, ∀ s : AvatarState,
        s.secondsElapsed ≤ (applyAvatarOp op s).secondsElapsed)
    ∧ (∀ op : AvatarOp, ∀ s : AvatarState,
        0 ≤ s.secondsElapsed → 0 ≤ (applyAvatarOp op s).secondsElapsed) := by
  have mono : ∀ op : AvatarOp, ∀ s : AvatarState,
      s.secondsElapsed ≤ (applyAvatarOp op s).secondsElapsed := by
    intro op s
    cases op <;>
      simp [applyAvatarOp, onConnectionEstablished, onVideoStartedStreaming,
        onConnectionClosed, timerTick, demoControlsStep, unmountTimer] <;>
      split <;> simp
  exact ⟨rfl, le_refl 0, mono, fun op s h => le_trans h (mono op s)⟩

/-- Witness for C6 at a concrete input: a tick on the initial state keeps the
counter non-negative. -/
theorem seconds_elapsed_starts_at_zero_and_never_decreases_witness :
    (0 : Int) ≤ initialAvatarState.secondsElapsed
    ∧ 0 ≤ (applyAvatarOp AvatarOp.tick initialAvatarState).secondsElapsed :=
  ⟨by decide,
    seconds_elapsed_starts_at_zero_and_never_decreases.2.2.2
      AvatarOp.tick initialAvatarState (by decide)⟩

/-- C9: the loading spinner is a function of the received lifecycle events:
the panel starts loading with the connecting message; the
connection-established callback changes only the message (the loading flag is
untouched, so from the initial state it is still set); video-play-started and
connection-closed clear the loading flag; and no operation of the panel ever
sets the flag back once cleared. -/
theorem loading_state_follows_lifecycle_events :
    initialAvatarState.loading = true
    ∧ initialAvatarState.loadingText = "Connecting..."
    ∧ (∀ s : AvatarState, onConnectionEstablished s
        = { s with loadingText := "Connected to a Persona." })
    ∧ (∀ s : AvatarState, (onConnectionEstablished s).loading = s.loading)
    ∧ (onConnectionEstablished initialAvatarState).loading = true
    ∧ (∀ s : AvatarState, (onVideoStartedStreaming s).loading = false)
    ∧ (∀ s : AvatarState, (onConnectionClosed s).loading = false)
    ∧ (∀ op : AvatarOp, ∀ s : AvatarState,
        (applyAvatarOp op s).loading = true → s.loading = true) := by
  refine ⟨rfl, rfl, fun s => rfl, fun s => rfl, rfl, fun s => rfl, fun s => rfl, ?_⟩
  intro op s
  cases op <;>
    simp [applyAvatarOp, onConnectionEstablished, onVideoStartedStreaming,
      onConnectionClosed, timerTick, demoControlsStep, unmountTimer] <;>
    split <;> simp

/-- Witness for C9 at a concrete input: the flag of the initial state is
recovered from the flag after the DemoControls step. -/
theorem loading_state_follows_lifecycle_events_witness :
    initialAvatarState.loading = true :=
  loading_state_follows_lifecycle_events.2.2.2.2.2.2.2
    AvatarOp.demoControls initialAvatarState rfl

/-- Removing an absent registration changes nothing. -/
theorem removeFirst_of_not_mem (p : Listener) (L : List Listener) (h : p ∉ L) :
    removeFirst p L = L := by
  induction L with
  | nil => rfl
  | cons q L ih =>
    simp only [List.mem_cons, not_or] at h
    simp [removeFirst, h.1, ih h.2]

/-- Removal skips over a prefix that does not contain the registration. -/
theorem removeFirst_append_of_not_mem (p : Listener) (L M : List Listener)
    (h : p ∉ L) : removeFirst p (L ++ M) = L ++ removeFirst p M := by
  induction L with
  | nil => rfl
  | cons q L ih =>
    simp only [List.mem_cons, not_or] at h
    simp [removeFirst, h.1, ih h.2]

/-- Removing a registration standing at the head drops exactly it. -/
theorem removeFirst_cons_self (p : Listener) (L : List Listener) :
    removeFirst p (p :: L) = L := by
  simp [removeFirst]

/-- C7: one mount/unmount cycle of the avatar panel returns the client's
listener registrations to exactly what they were before the mount, for every
combination of client-exists / client-initialized / media-refs flags — the
cleanup removes precisely the three (event, callback) pairs the mount
registered, and when registration was skipped the removals change nothing.
The hypotheses say the mount's three callback references are fresh, i.e. not
already registered (each mount creates its own callbacks). -/
theorem unmount_removes_exactly_mounted_listeners
    (init c vc ac : Bool) (cbEst cbVideo cbClosed : Nat) (L : List Listener)
    (h1 : (AnamEvent.CONNECTION_ESTABLISHED, cbEst) ∉ L)
    (h2 : (AnamEvent.VIDEO_PLAY_STARTED, cbVideo) ∉ L)
    (h3 : (AnamEvent.CONNECTION_CLOSED, cbClosed) ∉ L) :
    unmountListeners c cbEst cbVideo cbClosed
      (mountListeners init c vc ac cbEst cbVideo cbClosed L) = L := by
  by_cases hm : (init && c && vc && ac) = true
  · have hc : c = true := by
      simp only [Bool.and_eq_true] at hm
      exact hm.1.1.2
    rw [mountListeners, if_pos hm, unmountListeners, if_pos hc]
    simp only [addListener, removeListener, List.append_assoc,
      List.cons_append, List.nil_append]
    rw [removeFirst_append_of_not_mem _ _ _ h1, removeFirst_cons_self,
      removeFirst_append_of_not_mem _ _ _ h2, removeFirst_cons_self,
      removeFirst_append_of_not_mem _ _ _ h3, removeFirst_cons_self,
      List.append_nil]
  · rw [mountListeners, if_neg hm, unmountListeners]
    cases c with
    | false => rfl
    | true =>
      rw [if_pos rfl]
      simp only [removeListener]
      rw [removeFirst_of_not_mem _ _ h1, removeFirst_of_not_mem _ _ h2,
        removeFirst_of_not_mem _ _ h3]

/-- Witness for C7 at a concrete input: a successful mount on a client with no
prior registrations, distinct fresh callbacks 0, 1, 2. -/
theorem unmount_removes_exactly_mounted_listeners_witness :
    (AnamEvent.CONNECTION_ESTABLISHED, 0) ∉ ([] : List Listener)
    ∧ (AnamEvent.VIDEO_PLAY_STARTED, 1) ∉ ([] : List Listener)
    ∧ (AnamEvent.CONNECTION_CLOSED, 2) ∉ ([] : List Listener)
    ∧ unmountListeners true 0 1 2
        (mountListeners true true true true 0 1 2 []) = [] :=
  ⟨by simp, by simp, by simp,
    unmount_removes_exactly_mounted_listeners true true true true 0 1 2 []
      (by simp) (by simp) (by simp)⟩

/-- C8: when the client is initialized and both media refs are current, the
mount registers exactly three listeners — connection-established,
video-play-started, connection-closed — each strictly before the combined
streaming call, and that call receives the two fixed DOM element ids
`"video"` and `"audio"`; this holds whether or not the streaming promise
rejects. -/
theorem mount_registers_three_listeners_before_streaming
    (f : Bool) (cbEst cbVideo cbClosed : Nat) :
    countP isAddCall (avatarMountCalls true true true true f cbEst cbVideo cbClosed) = 3
    ∧ ClientCall.streamTo "video" "audio"
        ∈ avatarMountCalls true true true true f cbEst cbVideo cbClosed
    ∧ idxOf (ClientCall.addL AnamEvent.CONNECTION_ESTABLISHED cbEst)
          (avatarMountCalls true true true true f cbEst cbVideo cbClosed)
        < idxOf (ClientCall.streamTo videoElementId audioElementId)
          (avatarMountCalls true true true true f cbEst cbVideo cbClosed)
    ∧ idxOf (ClientCall.addL AnamEvent.VIDEO_PLAY_STARTED cbVideo)
          (avatarMountCalls true true true true f cbEst cbVideo cbClosed)
        < idxOf (ClientCall.streamTo videoElementId audioElementId)
          (avatarMountCalls true true true true f cbEst cbVideo cbClosed)
    ∧ idxOf (ClientCall.addL AnamEvent.CONNECTION_CLOSED cbClosed)
          (avatarMountCalls true true true true f cbEst cbVideo cbClosed)
        < idxOf (ClientCall.streamTo videoElementId audioElementId)
          (avatarMountCalls true true true true f cbEst cbVideo cbClosed) := by
  cases f <;>
    simp [avatarMountCalls, startStreaming, videoElementId, audioElementId,
      countP, isAddCall, idxOf]

/-- C10: a clickable click whose target is not `"Initial"` sets the current
view to the target, never invokes the router's push operation (the router
path is unchanged), and closes the sidebar; the Exit path also ends with the
sidebar closed. -/
theorem clickable_non_exit_sets_view_closes_sidebar
    (c f : Bool) (cv nav : String) (s : UIState) (hnav : nav ≠ "Initial") :
    (applyTrace s (handleMenuClick c f cv nav true)).currentView = nav
    ∧ (applyTrace s (handleMenuClick c f cv nav true)).pagePath = s.pagePath
    ∧ countP isRouterPush (handleMenuClick c f cv nav true) = 0
    ∧ (applyTrace s (handleMenuClick c f cv nav true)).sidebarOpen = false
    ∧ (applyTrace s (handleMenuClick c f cv "Initial" true)).sidebarOpen = false := by
  by_cases hcv : cv = "Demo" <;> by_cases hnd : nav = "Demo" <;>
    cases c <;> cases f <;>
      simp [handleMenuClick, handleExitClick, applyTrace, applyEffect,
        countP, isRouterPush, hnav, hcv, hnd]

/-- Witness for C10 at a concrete input: switching from `"Demo"` to
`"Settings"` with a client whose promise resolves, starting with the sidebar
open on the root path. -/
theorem clickable_non_exit_sets_view_closes_sidebar_witness :
    ("Settings" : String) ≠ "Initial"
    ∧ (applyTrace { sidebarOpen := true, currentView := "Demo", pagePath := "/lessons" }
        (handleMenuClick true false "Demo" "Settings" true)).currentView = "Settings"
    ∧ (applyTrace { sidebarOpen := true, currentView := "Demo", pagePath := "/lessons" }
        (handleMenuClick true false "Demo" "Settings" true)).sidebarOpen = false :=
  ⟨by decide,
    (clickable_non_exit_sets_view_closes_sidebar true false "Demo" "Settings"
      { sidebarOpen := true, currentView := "Demo", pagePath := "/lessons" }
      (by decide)).1,
    (clickable_non_exit_sets_view_closes_sidebar true false "Demo" "Settings"
      { sidebarOpen := true, currentView := "Demo", pagePath := "/lessons" }
      (by decide)).2.2.2.1⟩

end TeachingAssistant
